import Mathlib

/-!
Shallow embedding of the variable-binding environment and execution context of
`src/mongo/db/pipeline/variables.h` and
`src/mongo/db/pipeline/expression_context.cpp`.

Machine integers: `Variables::Id` is `int64_t`; signed overflow in C++ is
undefined behaviour and the only arithmetic on ids is a post-increment starting
from 0, so ids are modelled as unbounded `Int`.

Parts of the repository referenced by these two files but not present in the
excerpt (`variables.cpp`, `expression_context.h`, the generated
`RuntimeConstants` record) are modelled from the specification; each such
definition carries a doc comment starting `Modelled from the spec:`.
-/

namespace Mongo

/-- `Variables::Id` (`int64_t` in the source). -/
abbrev VarId := Int

/-- `Variables::kRootId`. -/
def kRootId : VarId := -1
/-- `Variables::kRemoveId`. -/
def kRemoveId : VarId := -2
/-- `Variables::kNowId`. -/
def kNowId : VarId := -3
/-- `Variables::kClusterTimeId`. -/
def kClusterTimeId : VarId := -4
/-- `Variables::kJsScopeId`. -/
def kJsScopeId : VarId := -5
/-- `Variables::kIsMapReduceId`. -/
def kIsMapReduceId : VarId := -6

/-- `Variables::isUserDefinedVariable`: non-negative ids are user ids. -/
def isUserDefinedVariable (id : VarId) : Bool := 0 ≤ id

/-- `Variables::IdGenerator`: `_nextId` starts at 0 (`IdGenerator() : _nextId(0)`). -/
structure IdGenerator where
  nextId : VarId := 0
  deriving Repr, DecidableEq

/-- `IdGenerator::generateId`: `return _nextId++;` — returns the current
counter and increments it. -/
def IdGenerator.generateId (g : IdGenerator) : VarId × IdGenerator :=
  (g.nextId, ⟨g.nextId + 1⟩)

/-- State of a fresh generator after `n` calls to `generateId`. -/
def IdGenerator.afterCalls : Nat → IdGenerator
  | 0 => {}
  | n + 1 => ((IdGenerator.afterCalls n).generateId).2

/-- The id returned by the `i`-th call (0-indexed) on a fresh generator. -/
def IdGenerator.returnedId (i : Nat) : VarId :=
  ((IdGenerator.afterCalls i).generateId).1

/-- A fragment of the document/value model (`Value`, `Document` are external
collaborators; only the shapes the variable store distinguishes are needed). -/
inductive Value where
  | missing
  | intV (n : Int)
  | strV (s : String)
  | boolV (b : Bool)
  | timestamp (t : Nat)
  | document (fields : List (String × Value))

/-- A document is a list of field-name/value pairs. -/
abbrev Document := List (String × Value)

/-- Association-list lookup (first match), standing in for the hash maps of
the source (`stdx::unordered_map`, `StringMap`). -/
def lookupA {α : Type} [DecidableEq α] {β : Type} (l : List (α × β)) (k : α) : Option β :=
  match l with
  | [] => none
  | (k', v) :: rest => if k' = k then some v else lookupA rest k

/-- `map[k] = v` overwrite semantics: later entries shadow earlier ones under
`lookupA`, so prepending is an overwrite. -/
def insertA {α : Type} [DecidableEq α] {β : Type} (l : List (α × β)) (k : α) (v : β) :
    List (α × β) :=
  (k, v) :: l

/-- Errors surfaced by the store and scope operations (`uassert`/`invariant`
failures in the source, classified as in spec §7). -/
inductive VarError where
  | reservedBuiltin
  | modifyConstant
  | undefinedVariable
  | runtimeConstantsAlreadySet
  | runtimeConstantsNotSet
  deriving Repr, DecidableEq

/-- Modelled from the spec: the generated `RuntimeConstants` record
(`runtime_constants_gen.h` is not in the excerpt) — local time, cluster time,
optional script scope, map-reduce flag (spec §3).  A cluster time is a
`Timestamp`; `Timestamp::isNull()` holds exactly for the zero timestamp, so
`clusterTime = 0` models a null cluster time. -/
structure RuntimeConstants where
  localNow : Nat
  clusterTime : Nat
  jsScope : Option Document := none
  isMapReduce : Bool := false

/-- The external clock/logical-time source (spec §6): current local time and
current cluster time. -/
structure Clock where
  localNow : Nat
  clusterTime : Nat
  deriving Repr, DecidableEq

/-- Modelled from the spec: `Variables::generateRuntimeConstants` (declared in
`variables.h`, defined in the missing `variables.cpp`): a pure function that
reads the current local and cluster times (spec §4.2); the script scope is
unset and the map-reduce flag false on a freshly generated record. -/
def generateRuntimeConstants (clock : Clock) : RuntimeConstants :=
  { localNow := clock.localNow, clusterTime := clock.clusterTime }

/-- `Variables::ValueAndState`: a binding is a value plus an is-constant flag
(`isConstant = false` by default). -/
structure ValueAndState where
  value : Value
  isConstant : Bool := false

/-- `Variables`: the value-binding store.  Fields mirror the private members
`_idGenerator`, `_values`, `_runtimeConstantsMap`, `_letParametersMap`,
`_runtimeConstants` of `variables.h`. -/
structure Variables where
  idGenerator : IdGenerator := {}
  values : List (VarId × ValueAndState) := []
  runtimeConstantsMap : List (VarId × Value) := []
  letParametersMap : List (VarId × Value) := []
  runtimeConstants : Option RuntimeConstants := none

/-- `Variables::hasConstantValue` (inline in `variables.h`): true iff `_values`
holds an entry for `id` whose `isConstant` flag is set. -/
def Variables.hasConstantValue (v : Variables) (id : VarId) : Bool :=
  match lookupA v.values id with
  | some vs => vs.isConstant
  | none => false

/-- `Variables::hasValue` (inline in `variables.h`): true for every system id
(`id < 0`); for user ids, true iff `_letParametersMap` holds the id. -/
def Variables.hasValue (v : Variables) (id : VarId) : Bool :=
  if id < 0 then true
  else (lookupA v.letParametersMap id).isSome

/-- Modelled from the spec: the private `Variables::setValue(id, value,
isConstant)` (defined in the missing `variables.cpp`).  Per the public doc
comments in `variables.h`, both setters are "Illegal to use with the reserved
builtin variables", and it is "illegal to change a value that has been marked
constant" (spec §4.2: fails with a modify-constant error). -/
def Variables.setValueInternal (v : Variables) (id : VarId) (val : Value) (isConst : Bool) :
    Except VarError Variables :=
  if ¬ isUserDefinedVariable id then .error .reservedBuiltin
  else if v.hasConstantValue id then .error .modifyConstant
  else .ok { v with values := insertA v.values id ⟨val, isConst⟩ }

/-- `Variables::setValue(id, value)`: binds mutably. -/
def Variables.setValue (v : Variables) (id : VarId) (val : Value) : Except VarError Variables :=
  v.setValueInternal id val false

/-- `Variables::setConstantValue(id, value)`: binds and marks constant. -/
def Variables.setConstantValue (v : Variables) (id : VarId) (val : Value) :
    Except VarError Variables :=
  v.setValueInternal id val true

/-- Modelled from the spec: the two-argument `Variables::getValue(id, root)`
(defined in the missing `variables.cpp`).  Spec §4.2: for ROOT it returns the
supplied current document as a value; REMOVE denotes absence (spec §3, "never
holding a stored value"); other system ids resolve against the
runtime-constants map; an unbound user id yields the defined "missing" value,
not an error. -/
def Variables.getValue (v : Variables) (id : VarId) (root : Document) : Value :=
  if id = kRootId then .document root
  else if id = kRemoveId then .missing
  else if id < 0 then ((lookupA v.runtimeConstantsMap id).getD .missing)
  else
    match lookupA v.values id with
    | some vs => vs.value
    | none => .missing

/-- The single-argument `Variables::getValue(id)` overload, inline in
`variables.h`: `return getValue(id, Document{});` — it forwards to the
two-argument overload with an empty document and performs no check on `id`. -/
def Variables.getValue1 (v : Variables) (id : VarId) : Value :=
  v.getValue id []

/-- Modelled from the spec: seeding one let parameter (the loop body of
`Variables::seedVariablesWithLetParameters`, defined in the missing
`variables.cpp`).  Spec §4.2: the resolved value is "stored as a constant
binding", and the id enters the let-parameter-seeded set that `hasValue`
consults (`_letParametersMap` in `variables.h`). -/
def Variables.seedLetParameter (v : Variables) (id : VarId) (val : Value) : Variables :=
  { v with
    values := insertA v.values id ⟨val, true⟩
    letParametersMap := insertA v.letParametersMap id val }

/-- Modelled from the spec: `Variables::setRuntimeConstants` (declared in
`variables.h`: "It is a programming error to call this more than once"). -/
def Variables.setRuntimeConstants (v : Variables) (rc : RuntimeConstants) :
    Except VarError Variables :=
  if v.runtimeConstants.isSome then .error .runtimeConstantsAlreadySet
  else .ok { v with runtimeConstants := some rc }

/-- `Variables::setDefaultRuntimeConstants`: sets the runtime constants "using
the current local and cluster times" (`variables.h`). -/
def Variables.setDefaultRuntimeConstants (v : Variables) (clock : Clock) :
    Except VarError Variables :=
  v.setRuntimeConstants (generateRuntimeConstants clock)

/-- `VariablesParseState`: the lexical scope.  `_variables : StringMap<Id>` and
`_lastSeen` mirror `variables.h`; the non-owning `_idGenerator` pointer is
modelled by threading generator state explicitly through `defineVariable`. -/
structure VariablesParseState where
  varMap : List (String × VarId) := []
  lastSeen : VarId := -1
  deriving Repr, DecidableEq

/-- Modelled from the spec: `VariablesParseState::defineVariable` (defined in
the missing `variables.cpp`).  Spec §4.3: obtains a fresh id from the shared
generator and records `name -> id` locally, overwriting any prior local entry
with the same name.  The generator the scope currently points at is passed in
and returned updated. -/
def VariablesParseState.defineVariable (vps : VariablesParseState) (g : IdGenerator)
    (name : String) : VarId × VariablesParseState × IdGenerator :=
  let (id, g') := g.generateId
  (id, { vps with varMap := insertA vps.varMap name id, lastSeen := id }, g')

/-- Modelled from the spec: `VariablesParseState::getVariable` (defined in the
missing `variables.cpp`).  Spec §4.3: lookup is local to this scope's map
only; the current-document alias (spelled `CURRENT`, an implicit alias of
`ROOT`) is always implicitly resolvable when not explicitly defined; an absent
name is an undefined-variable error. -/
def VariablesParseState.getVariable (vps : VariablesParseState) (name : String) :
    Except VarError VarId :=
  match lookupA vps.varMap name with
  | some id => .ok id
  | none =>
    if name = "ROOT" ∨ name = "CURRENT" then .ok kRootId
    else .error .undefinedVariable

/-- `VariablesParseState::copyWith` (inline in `variables.h`): `*this` is
copied by value and only the `_idGenerator` pointer is replaced; since the
generator is threaded externally here, the copy is the scope state itself
(the name-to-id map and `_lastSeen` are copied verbatim). -/
def VariablesParseState.copyWith (vps : VariablesParseState) : VariablesParseState :=
  vps

/-- A collator object, identified by its address: `_collator` is a
`std::unique_ptr<CollatorInterface>` and `none` models the null pointer
(binary/simple comparison).  Moving a `unique_ptr` preserves the pointee's
address, so identity of the collator is equality of this id. -/
abbrev CollatorPtr := Option Nat

/-- `ExpressionContext`.  Fields mirror the members referenced by
`expression_context.cpp`; the comparators store the collator pointer they were
derived from (`DocumentComparator(_collator.get())`,
`ValueComparator(_collator.get())`).  `interruptPeriod` models the class
constant `kInterruptCheckPeriod` (declared in the missing
`expression_context.h`; the spec fixes only that it is a positive fixed
period), and `interruptCounter` models `_interruptCounter`, initialized to the
period. -/
structure ExpressionContext where
  explain : Option Nat := none
  fromMongos : Bool := false
  needsMerge : Bool := false
  allowDiskUse : Bool := false
  bypassDocumentValidation : Bool := false
  isMapReduce : Bool := false
  ns : String := ""
  uuid : Option Nat := none
  collator : CollatorPtr := none
  documentComparator : CollatorPtr := none
  valueComparator : CollatorPtr := none
  vars : Variables := {}
  variablesParseState : VariablesParseState := {}
  jsHeapLimitMB : Option Nat := none
  interruptPeriod : Nat := 1
  interruptCounter : Nat := 1
  inMongos : Bool := false
  maxFeatureCompatibilityVersion : Option Nat := none
  subPipelineDepth : Nat := 0
  tempDir : String := ""

/-- The runtime-constant resolution performed by the `ExpressionContext`
constructor body (`expression_context.cpp` lines 112-122): explicit constants
with a null cluster time are replaced by freshly generated ones onto which the
supplied script scope and map-reduce flag are copied; explicit constants with
a non-null cluster time are used verbatim; absent constants are generated
fresh (`setDefaultRuntimeConstants`). -/
def resolveRuntimeConstants (clock : Clock) (runtimeConstants : Option RuntimeConstants) :
    RuntimeConstants :=
  match runtimeConstants with
  | some rc =>
    if rc.clusterTime = 0 then
      { generateRuntimeConstants clock with jsScope := rc.jsScope, isMapReduce := rc.isMapReduce }
    else rc
  | none => generateRuntimeConstants clock

/-- The main (14-argument) `ExpressionContext` constructor
(`expression_context.cpp` lines 77-137), without the let-parameter seeding
step (no claim depends on it).  The member initializers set the execution
flags, the collator and its derived comparators, and a fresh `Variables` /
`VariablesParseState` pair; the body resolves the runtime constants into
`variables` and, when the execution is not a map-reduce invocation, sets
`jsHeapLimitMB` from the loaded server parameter (`jsHeapLimit` here; declared
in the missing `expression_context.h` with no value, i.e. `none`, as its
default).  `period` models `kInterruptCheckPeriod`. -/
def ExpressionContext.construct (clock : Clock) (period : Nat) (jsHeapLimit : Nat)
    (explain : Option Nat) (fromMongos needsMerge allowDiskUse bypassDocumentValidation
    isMapReduce : Bool) (ns : String) (runtimeConstants : Option RuntimeConstants)
    (collator : CollatorPtr) (uuid : Option Nat) : ExpressionContext :=
  { explain := explain
    fromMongos := fromMongos
    needsMerge := needsMerge
    allowDiskUse := allowDiskUse
    bypassDocumentValidation := bypassDocumentValidation
    isMapReduce := isMapReduce
    ns := ns
    uuid := uuid
    collator := collator
    documentComparator := collator
    valueComparator := collator
    vars := { runtimeConstants := some (resolveRuntimeConstants clock runtimeConstants) }
    variablesParseState := {}
    jsHeapLimitMB := if isMapReduce then none else some jsHeapLimit
    interruptPeriod := period
    interruptCounter := period }

/-- `ExpressionContext::checkForInterrupt` (`expression_context.cpp` lines
162-169): `if (--_interruptCounter == 0) { _interruptCounter =
kInterruptCheckPeriod; opCtx->checkForInterrupt(); }`.  Returns the updated
context and whether the underlying cancellation check ran (the no-cancellation
-pending case, where `opCtx->checkForInterrupt()` returns normally). -/
def ExpressionContext.checkForInterrupt (e : ExpressionContext) :
    ExpressionContext × Bool :=
  if e.interruptCounter - 1 = 0 then
    ({ e with interruptCounter := e.interruptPeriod }, true)
  else
    ({ e with interruptCounter := e.interruptCounter - 1 }, false)

/-- `n` successive `checkForInterrupt` calls; returns the final context and
how many times the underlying cancellation check was invoked. -/
def ExpressionContext.runInterruptCalls (e : ExpressionContext) : Nat → ExpressionContext × Nat
  | 0 => (e, 0)
  | n + 1 =>
    let r := e.runInterruptCalls n
    let s := r.1.checkForInterrupt
    (s.1, if s.2 then r.2 + 1 else r.2)

/-- Modelled from the spec: `ExpressionContext::setCollator` (declared in the
missing `expression_context.h`).  Spec §4.4: installs the new collator and
regenerates the derived value/document comparators from it. -/
def ExpressionContext.setCollator (e : ExpressionContext) (c : CollatorPtr) :
    ExpressionContext :=
  { e with collator := c, documentComparator := c, valueComparator := c }

/-- `ExpressionContext::CollatorStash`: `_originalCollator` holds the collator
moved out of the context at construction. -/
structure CollatorStash where
  originalCollator : CollatorPtr
  deriving Repr, DecidableEq

/-- `ExpressionContext::temporarilyChangeCollator` together with the
`CollatorStash` constructor (`expression_context.cpp` lines 171-186): the
current collator is moved into the stash and the new one installed via
`setCollator`. -/
def ExpressionContext.temporarilyChangeCollator (e : ExpressionContext)
    (newCollator : CollatorPtr) : CollatorStash × ExpressionContext :=
  (⟨e.collator⟩, e.setCollator newCollator)

/-- `ExpressionContext::CollatorStash::~CollatorStash` (`expression_context.cpp`
lines 178-180): `_expCtx->setCollator(std::move(_originalCollator));`.  The
destructor body runs whenever the stash goes out of scope — by normal exit or
by stack unwinding on error propagation — so release is this one operation on
whatever context state holds at that moment. -/
def CollatorStash.release (s : CollatorStash) (e : ExpressionContext) : ExpressionContext :=
  e.setCollator s.originalCollator

/-- `ExpressionContext::copyWith` (`expression_context.cpp` lines 188-225).
`updatedCollator = some c` models a supplied `boost::optional` argument;
otherwise the parent's collator is cloned (`_collator->clone()` — a fresh
object, address `freshCollatorId`) when present.  The child is built by the
main constructor with `false` for `isMapReduce` and `boost::none` for
`runtimeConstants`, then the auxiliary fields, the whole `Variables` state and
the forked parse state are assigned over it.  `_interruptCounter` is
intentionally not copied. -/
def ExpressionContext.copyWith (e : ExpressionContext) (clock : Clock) (period : Nat)
    (jsHeapLimit : Nat) (ns : String) (uuid : Option Nat)
    (updatedCollator : Option CollatorPtr) (freshCollatorId : Nat) : ExpressionContext :=
  let collator : CollatorPtr :=
    match updatedCollator with
    | some c => c
    | none => e.collator.map fun _ => freshCollatorId
  let child := ExpressionContext.construct clock period jsHeapLimit e.explain e.fromMongos
    e.needsMerge e.allowDiskUse e.bypassDocumentValidation false ns none collator uuid
  { child with
    inMongos := e.inMongos
    maxFeatureCompatibilityVersion := e.maxFeatureCompatibilityVersion
    subPipelineDepth := e.subPipelineDepth
    tempDir := e.tempDir
    jsHeapLimitMB := e.jsHeapLimitMB
    vars := e.vars
    variablesParseState := e.variablesParseState.copyWith }

/-! ## Concrete sample states used to instantiate the theorems -/

/-- A context whose interrupt countdown is freshly reset with period 3. -/
def sampleCtx : ExpressionContext := { interruptPeriod := 3, interruptCounter := 3 }

/-- A sample clock source. -/
def sampleClock : Clock := { localNow := 10, clusterTime := 20 }

/-- Explicit runtime constants with a null cluster time, a script scope and
the map-reduce flag set. -/
def sampleRC : RuntimeConstants :=
  { localNow := 1, clusterTime := 0, jsScope := some [], isMapReduce := true }

/-- Runtime constants with a non-null cluster time. -/
def sampleRC2 : RuntimeConstants := { localNow := 1, clusterTime := 2, isMapReduce := true }

/-- A context whose runtime constants are set to `sampleRC2`. -/
def sampleCtxRC : ExpressionContext := { vars := { runtimeConstants := some sampleRC2 } }

/-- The store obtained from a fresh one by `setValue 3 (intV 5)`. -/
def sampleSetVars : Variables := { values := [((3 : Int), ⟨Value.intV 5, false⟩)] }

/-- The store obtained from a fresh one by `setConstantValue 3 (intV 5)`. -/
def sampleSetVarsC : Variables := { values := [((3 : Int), ⟨Value.intV 5, true⟩)] }

/-- The store obtained from a fresh one by `setConstantValue 0 (intV 7)`. -/
def sampleConstVars : Variables := { values := [((0 : Int), ⟨Value.intV 7, true⟩)] }

/-! ## Helper lemmas -/

theorem lookupA_insertA_same {α : Type} [DecidableEq α] {β : Type}
    (l : List (α × β)) (k : α) (v : β) : lookupA (insertA l k v) k = some v := by
  simp [insertA, lookupA]

theorem lookupA_insertA_other {α : Type} [DecidableEq α] {β : Type}
    (l : List (α × β)) (k k' : α) (v : β) (h : k ≠ k') :
    lookupA (insertA l k v) k' = lookupA l k' := by
  simp [insertA, lookupA, h]

theorem IdGenerator.afterCalls_nextId (n : Nat) :
    (IdGenerator.afterCalls n).nextId = (n : Int) := by
  induction n with
  | zero => rfl
  | succ k ih => simp [IdGenerator.afterCalls, IdGenerator.generateId, ih]

theorem IdGenerator.returnedId_eq (i : Nat) : IdGenerator.returnedId i = (i : Int) := by
  simp [IdGenerator.returnedId, IdGenerator.generateId, IdGenerator.afterCalls_nextId]

theorem succ_mod_div (p n : Nat) (hp : 0 < p) :
    ((n + 1) % p = if n % p + 1 = p then 0 else n % p + 1) ∧
    ((n + 1) / p = if n % p + 1 = p then n / p + 1 else n / p) := by
  have hd := Nat.div_add_mod n p
  have hlt : n % p < p := Nat.mod_lt _ hp
  by_cases hb : n % p + 1 = p
  · have e1 : p * (n / p + 1) = p * (n / p) + p := by ring
    have h1 : n + 1 = p * (n / p + 1) := by omega
    rw [if_pos hb, if_pos hb, h1]
    exact ⟨Nat.mul_mod_right p _, Nat.mul_div_cancel_left _ hp⟩
  · have hlt2 : n % p + 1 < p := by omega
    have h2 : n + 1 = p * (n / p) + (n % p + 1) := by omega
    rw [if_neg hb, if_neg hb, h2, Nat.mul_add_mod, Nat.mul_add_div hp,
      Nat.mod_eq_of_lt hlt2, Nat.div_eq_of_lt hlt2]
    exact ⟨rfl, by omega⟩

theorem checkForInterrupt_fire (e : ExpressionContext) (h : e.interruptCounter - 1 = 0) :
    e.checkForInterrupt = ({ e with interruptCounter := e.interruptPeriod }, true) := by
  simp [ExpressionContext.checkForInterrupt, h]

theorem checkForInterrupt_skip (e : ExpressionContext) (h : e.interruptCounter - 1 ≠ 0) :
    e.checkForInterrupt = ({ e with interruptCounter := e.interruptCounter - 1 }, false) := by
  simp [ExpressionContext.checkForInterrupt, h]

/-- The countdown invariant of the amortized interrupt check: starting from a
freshly reset countdown, after `n` calls the period is unchanged, the counter
equals `period - n % period`, and exactly `n / period` underlying checks have
run. -/
theorem runInterruptCalls_succ (e : ExpressionContext) (n : Nat) :
    e.runInterruptCalls (n + 1)
      = ((e.runInterruptCalls n).1.checkForInterrupt.1,
         if (e.runInterruptCalls n).1.checkForInterrupt.2
           then (e.runInterruptCalls n).2 + 1 else (e.runInterruptCalls n).2) := rfl

/-- The countdown invariant of the amortized interrupt check: starting from a
freshly reset countdown, after `n` calls the period is unchanged, the counter
equals `period - n % period`, and exactly `n / period` underlying checks have
run. -/
theorem runInterruptCalls_spec (e : ExpressionContext) (hp : 0 < e.interruptPeriod)
    (hc : e.interruptCounter = e.interruptPeriod) (n : Nat) :
    (e.runInterruptCalls n).1.interruptPeriod = e.interruptPeriod ∧
    (e.runInterruptCalls n).1.interruptCounter
      = e.interruptPeriod - n % e.interruptPeriod ∧
    (e.runInterruptCalls n).2 = n / e.interruptPeriod := by
  induction n with
  | zero =>
    refine ⟨rfl, ?_, ?_⟩
    · show e.interruptCounter = _
      simp [hc]
    · show (0 : Nat) = 0 / e.interruptPeriod
      simp
  | succ k ih =>
    obtain ⟨ih1, ih2, ih3⟩ := ih
    have hlt : k % e.interruptPeriod < e.interruptPeriod := Nat.mod_lt _ hp
    obtain ⟨hm, hv⟩ := succ_mod_div e.interruptPeriod k hp
    by_cases hb : k % e.interruptPeriod + 1 = e.interruptPeriod
    · have hfire : (e.runInterruptCalls k).1.interruptCounter - 1 = 0 := by omega
      rw [if_pos hb] at hm hv
      rw [runInterruptCalls_succ, checkForInterrupt_fire _ hfire]
      refine ⟨ih1, ?_, ?_⟩
      · show (e.runInterruptCalls k).1.interruptPeriod = _
        omega
      · show (e.runInterruptCalls k).2 + 1 = _
        omega
    · have hskip : (e.runInterruptCalls k).1.interruptCounter - 1 ≠ 0 := by omega
      rw [if_neg hb] at hm hv
      rw [runInterruptCalls_succ, checkForInterrupt_skip _ hskip]
      refine ⟨ih1, ?_, ?_⟩
      · show (e.runInterruptCalls k).1.interruptCounter - 1 = _
        omega
      · show (e.runInterruptCalls k).2 = _
        omega

/-! ## Claims -/

/-- C1 (counterexample): on a freshly constructed `Variables` instance, the
single-argument `getValue` called with ROOT does not fail fast — it returns a
normal value, the empty document — refuting the claim that calling it with
ROOT is an assertion-style failure for every instance and stored state. -/
theorem C1_getValue_root_counterexample :
    Variables.getValue1 {} kRootId = Value.document [] := rfl

/-- C1 (amended): calling the single-argument `getValue` with ROOT is not a
fail-fast programming error: for every `Variables` instance and stored state
it forwards to the two-argument overload with an empty document, returning the
empty document as a value (rather than the actual root document). -/
theorem C1_getValue_root_returns_empty_document (v : Variables) :
    v.getValue1 kRootId = Value.document [] ∧
    v.getValue1 kRootId = v.getValue kRootId [] :=
  ⟨rfl, rfl⟩

/-- C2: for every sequence of `n` `checkForInterrupt` calls on one context
with no cancellation pending, starting from a freshly reset countdown, the
underlying cancellation check runs exactly `n / period` times (exactly once
per `period` calls, never more often); a call that fires resets the countdown
to the fixed period constant, and a call whose countdown has not reached zero
performs no cancellation check and only decrements the countdown. -/
theorem C2_checkForInterrupt_amortized (e e' : ExpressionContext) (n : Nat)
    (hp : 0 < e.interruptPeriod) (hc : e.interruptCounter = e.interruptPeriod) :
    (e.runInterruptCalls n).2 = n / e.interruptPeriod ∧
    (e'.interruptCounter - 1 = 0 →
      e'.checkForInterrupt.2 = true ∧
      e'.checkForInterrupt.1.interruptCounter = e'.interruptPeriod) ∧
    (e'.interruptCounter - 1 ≠ 0 →
      e'.checkForInterrupt.2 = false ∧
      e'.checkForInterrupt.1.interruptCounter = e'.interruptCounter - 1) := by
  refine ⟨(runInterruptCalls_spec e hp hc n).2.2, ?_, ?_⟩
  · intro h
    rw [checkForInterrupt_fire _ h]
    exact ⟨rfl, rfl⟩
  · intro h
    rw [checkForInterrupt_skip _ h]
    exact ⟨rfl, rfl⟩

/-- C2 witness: with period 3 and a fresh countdown, 7 calls invoke the
underlying check exactly 7 / 3 = 2 times. -/
theorem C2_checkForInterrupt_amortized_witness :
    (sampleCtx.runInterruptCalls 7).2 = 7 / sampleCtx.interruptPeriod ∧
    (sampleCtx.interruptCounter - 1 = 0 →
      sampleCtx.checkForInterrupt.2 = true ∧
      sampleCtx.checkForInterrupt.1.interruptCounter = sampleCtx.interruptPeriod) ∧
    (sampleCtx.interruptCounter - 1 ≠ 0 →
      sampleCtx.checkForInterrupt.2 = false ∧
      sampleCtx.checkForInterrupt.1.interruptCounter = sampleCtx.interruptCounter - 1) :=
  C2_checkForInterrupt_amortized sampleCtx sampleCtx 7 (by decide) rfl

/-- C3: at construction, explicit runtime constants with a null cluster time
are replaced by constants freshly synthesized from the clock source except
that the supplied script scope and map-reduce flag are copied onto the
result; explicit constants with a non-null cluster time are installed
verbatim; absent constants are synthesized fully fresh. -/
theorem C3_runtime_constants_resolution (clock : Clock) (rc : RuntimeConstants)
    (period jsl : Nat) (ex : Option Nat) (fm nm du bv mr : Bool) (ns : String)
    (col : CollatorPtr) (uuid : Option Nat) :
    (rc.clusterTime = 0 →
      (ExpressionContext.construct clock period jsl ex fm nm du bv mr ns (some rc) col
          uuid).vars.runtimeConstants
        = some { localNow := clock.localNow, clusterTime := clock.clusterTime,
                 jsScope := rc.jsScope, isMapReduce := rc.isMapReduce }) ∧
    (rc.clusterTime ≠ 0 →
      (ExpressionContext.construct clock period jsl ex fm nm du bv mr ns (some rc) col
          uuid).vars.runtimeConstants = some rc) ∧
    (ExpressionContext.construct clock period jsl ex fm nm du bv mr ns none col
        uuid).vars.runtimeConstants = some (generateRuntimeConstants clock) := by
  refine ⟨?_, ?_, rfl⟩ <;> intro h <;>
    simp [ExpressionContext.construct, resolveRuntimeConstants, generateRuntimeConstants, h]

/-- C3 witness: instantiation at a concrete clock and concrete explicit
constants with a null cluster time, script scope and map-reduce flag set. -/
theorem C3_runtime_constants_resolution_witness :
    (sampleRC.clusterTime = 0 →
      (ExpressionContext.construct sampleClock 3 5 none false false false false false ""
          (some sampleRC) none none).vars.runtimeConstants
        = some { localNow := sampleClock.localNow, clusterTime := sampleClock.clusterTime,
                 jsScope := sampleRC.jsScope, isMapReduce := sampleRC.isMapReduce }) ∧
    (sampleRC.clusterTime ≠ 0 →
      (ExpressionContext.construct sampleClock 3 5 none false false false false false ""
          (some sampleRC) none none).vars.runtimeConstants = some sampleRC) ∧
    (ExpressionContext.construct sampleClock 3 5 none false false false false false ""
        none none none).vars.runtimeConstants = some (generateRuntimeConstants sampleClock) :=
  C3_runtime_constants_resolution sampleClock sampleRC 3 5 none false false false false false
    "" none none

/-- C4: forking a lexical scope via `copyWith` starts the child with exactly
the parent's visible name-to-id entries; a variable defined in the child
after the fork is invisible to `getVariable` on the parent (whose lookup for
a previously unbound name still fails), and a variable defined in the parent
after the fork is invisible to the already-forked child. -/
theorem C4_scope_fork_isolation (s : VariablesParseState) (g gp : IdGenerator)
    (name other : String) (hfresh : lookupA s.varMap name = none)
    (hroot : ¬(name = "ROOT" ∨ name = "CURRENT")) :
    s.copyWith.varMap = s.varMap ∧
    s.copyWith.getVariable other = s.getVariable other ∧
    (s.copyWith.defineVariable g name).2.1.getVariable name
      = Except.ok (s.copyWith.defineVariable g name).1 ∧
    s.getVariable name = Except.error VarError.undefinedVariable ∧
    (s.defineVariable gp name).2.1.getVariable name
      = Except.ok (s.defineVariable gp name).1 ∧
    s.copyWith.getVariable name = Except.error VarError.undefinedVariable := by
  have hget : s.getVariable name = Except.error VarError.undefinedVariable := by
    simp [VariablesParseState.getVariable, hfresh, hroot]
  have hdef : ∀ g0 : IdGenerator,
      (s.defineVariable g0 name).2.1.getVariable name
        = Except.ok (s.defineVariable g0 name).1 := by
    intro g0
    simp [VariablesParseState.defineVariable, VariablesParseState.getVariable,
      IdGenerator.generateId, lookupA_insertA_same]
  exact ⟨rfl, rfl, hdef g, hget, hdef gp, hget⟩

/-- C4 witness: on an empty parent scope, defining the fresh name x in the
forked child makes the name resolvable in the child while the parent's lookup
still fails, and symmetrically for a post-fork definition in the parent. -/
theorem C4_scope_fork_isolation_witness :
    (VariablesParseState.copyWith {}).varMap = ({} : VariablesParseState).varMap ∧
    (VariablesParseState.copyWith {}).getVariable "y"
      = ({} : VariablesParseState).getVariable "y" ∧
    ((VariablesParseState.copyWith {}).defineVariable {} "x").2.1.getVariable "x"
      = Except.ok ((VariablesParseState.copyWith {}).defineVariable {} "x").1 ∧
    ({} : VariablesParseState).getVariable "x" = Except.error VarError.undefinedVariable ∧
    (({} : VariablesParseState).defineVariable {} "x").2.1.getVariable "x"
      = Except.ok (({} : VariablesParseState).defineVariable {} "x").1 ∧
    (VariablesParseState.copyWith {}).getVariable "x"
      = Except.error VarError.undefinedVariable :=
  C4_scope_fork_isolation {} {} {} "x" "y" rfl (by decide)

/-- C5: acquiring a collator override via `temporarilyChangeCollator`,
performing any number of operations, then releasing the handle (the stash
destructor body, which runs on normal scope exit and on error-path unwinding
alike) restores the identical original collator object — identity being
modelled by the collator's address — together with the document and value
comparators derived from it. -/
theorem C5_collator_stash_restores (e : ExpressionContext) (newCollator : CollatorPtr)
    (ops : ExpressionContext → ExpressionContext)
    (hdoc : e.documentComparator = e.collator) (hval : e.valueComparator = e.collator) :
    ((e.temporarilyChangeCollator newCollator).1.release
        (ops (e.temporarilyChangeCollator newCollator).2)).collator = e.collator ∧
    ((e.temporarilyChangeCollator newCollator).1.release
        (ops (e.temporarilyChangeCollator newCollator).2)).documentComparator
      = e.documentComparator ∧
    ((e.temporarilyChangeCollator newCollator).1.release
        (ops (e.temporarilyChangeCollator newCollator).2)).valueComparator
      = e.valueComparator ∧
    (e.temporarilyChangeCollator newCollator).2.collator = newCollator := by
  exact ⟨rfl, hdoc.symm, hval.symm, rfl⟩

/-- C5 witness: on a default context (null collator), overriding with
collator 5, then performing an operation that itself swaps in collator 9, and
releasing the stash restores the original null collator and comparators. -/
theorem C5_collator_stash_restores_witness :
    ((ExpressionContext.temporarilyChangeCollator {} (some 5)).1.release
        ((fun c => c.setCollator (some 9))
          (ExpressionContext.temporarilyChangeCollator {} (some 5)).2)).collator
      = ({} : ExpressionContext).collator ∧
    ((ExpressionContext.temporarilyChangeCollator {} (some 5)).1.release
        ((fun c => c.setCollator (some 9))
          (ExpressionContext.temporarilyChangeCollator {} (some 5)).2)).documentComparator
      = ({} : ExpressionContext).documentComparator ∧
    ((ExpressionContext.temporarilyChangeCollator {} (some 5)).1.release
        ((fun c => c.setCollator (some 9))
          (ExpressionContext.temporarilyChangeCollator {} (some 5)).2)).valueComparator
      = ({} : ExpressionContext).valueComparator ∧
    (ExpressionContext.temporarilyChangeCollator {} (some 5)).2.collator = some 5 :=
  C5_collator_stash_restores {} (some 5) (fun c => c.setCollator (some 9)) rfl rfl

/-- C6: `hasValue` is true for every system id regardless of whether any
binding was ever stored; for user ids it reflects exactly membership in the
let-parameter-seeded set, so it is unchanged by `setValue` and
`setConstantValue` (in particular it stays false for a user id assigned only
through them) and becomes true when the id is seeded as a let parameter. -/
theorem C6_hasValue_semantics (v v1 v2 : Variables) (id : VarId) (val : Value) :
    (id < 0 → v.hasValue id = true) ∧
    (0 ≤ id → v.hasValue id = (lookupA v.letParametersMap id).isSome) ∧
    (v.setValue id val = Except.ok v1 → v1.hasValue id = v.hasValue id) ∧
    (v.setConstantValue id val = Except.ok v2 → v2.hasValue id = v.hasValue id) ∧
    (v.seedLetParameter id val).hasValue id = true := by
  have hpres : ∀ (b : Bool) (w : Variables),
      v.setValueInternal id val b = Except.ok w → w.hasValue id = v.hasValue id := by
    intro b w hw
    simp only [Variables.setValueInternal] at hw
    split at hw
    · simp at hw
    · split at hw
      · simp at hw
      · injection hw with hw2
        subst hw2
        rfl
  refine ⟨?_, ?_, hpres false v1, hpres true v2, ?_⟩
  · intro h
    simp [Variables.hasValue, h]
  · intro h
    simp [Variables.hasValue, show ¬(id < 0) from not_lt.mpr h]
  · by_cases h5 : id < 0
    · simp [Variables.seedLetParameter, Variables.hasValue, h5]
    · simp [Variables.seedLetParameter, Variables.hasValue, h5, lookupA_insertA_same]

/-- C6 witness: instantiation at user id 3 on a fresh store, with the stores
produced by a successful `setValue` and `setConstantValue` of `intV 5`. -/
theorem C6_hasValue_semantics_witness :
    ((3 : Int) < 0 → Variables.hasValue {} 3 = true) ∧
    ((0 : Int) ≤ 3 →
      Variables.hasValue {} 3 = (lookupA ({} : Variables).letParametersMap 3).isSome) ∧
    (Variables.setValue {} 3 (Value.intV 5) = Except.ok sampleSetVars →
      sampleSetVars.hasValue 3 = Variables.hasValue {} 3) ∧
    (Variables.setConstantValue {} 3 (Value.intV 5) = Except.ok sampleSetVarsC →
      sampleSetVarsC.hasValue 3 = Variables.hasValue {} 3) ∧
    (Variables.seedLetParameter {} 3 (Value.intV 5)).hasValue 3 = true :=
  C6_hasValue_semantics {} sampleSetVars sampleSetVarsC 3 (Value.intV 5)

/-- C7: `copyWith` produces a child context whose map-reduce flag is false
regardless of the parent's flags, while the child reuses the parent's explain
verbosity, fromMongos, needsMerge, allowDiskUse and bypassDocumentValidation
flags unchanged. -/
theorem C7_copyWith_flags (e : ExpressionContext) (clock : Clock) (period jsl : Nat)
    (ns : String) (uuid : Option Nat) (uc : Option CollatorPtr) (fid : Nat) :
    (e.copyWith clock period jsl ns uuid uc fid).isMapReduce = false ∧
    (e.copyWith clock period jsl ns uuid uc fid).explain = e.explain ∧
    (e.copyWith clock period jsl ns uuid uc fid).fromMongos = e.fromMongos ∧
    (e.copyWith clock period jsl ns uuid uc fid).needsMerge = e.needsMerge ∧
    (e.copyWith clock period jsl ns uuid uc fid).allowDiskUse = e.allowDiskUse ∧
    (e.copyWith clock period jsl ns uuid uc fid).bypassDocumentValidation
      = e.bypassDocumentValidation :=
  ⟨rfl, rfl, rfl, rfl, rfl, rfl⟩

/-- C8: after `setConstantValue(X, v)` succeeds, a further `setValue` or
`setConstantValue` on `X` fails with the constant-violation error, and the
stored binding for `X` is unchanged by the failed write: it is still `v`,
still marked constant, and `getValue` still returns `v`. -/
theorem C8_constant_violation (v v1 : Variables) (id : VarId) (val w : Value)
    (h : v.setConstantValue id val = Except.ok v1) :
    v1.setValue id w = Except.error VarError.modifyConstant ∧
    v1.setConstantValue id w = Except.error VarError.modifyConstant ∧
    lookupA v1.values id = some ⟨val, true⟩ ∧
    v1.getValue1 id = val := by
  simp only [Variables.setConstantValue, Variables.setValueInternal] at h
  split at h
  · simp at h
  · split at h
    · simp at h
    · rename_i hu hconst
      injection h with h2
      subst h2
      have hge : (0 : Int) ≤ id := by
        have := not_not.mp hu
        simpa [isUserDefinedVariable] using this
      have hcv : Variables.hasConstantValue
          { v with values := insertA v.values id ⟨val, true⟩ } id = true := by
        simp [Variables.hasConstantValue, lookupA_insertA_same]
      refine ⟨?_, ?_, lookupA_insertA_same _ _ _, ?_⟩
      · simp only [Variables.setValue, Variables.setValueInternal]
        rw [if_neg hu, if_pos hcv]
      · simp only [Variables.setConstantValue, Variables.setValueInternal]
        rw [if_neg hu, if_pos hcv]
      · have hr1 : ¬(id = kRootId) := by
          intro hEq
          rw [hEq] at hge
          exact absurd hge (by decide)
        have hr2 : ¬(id = kRemoveId) := by
          intro hEq
          rw [hEq] at hge
          exact absurd hge (by decide)
        simp only [Variables.getValue1, Variables.getValue]
        rw [if_neg hr1, if_neg hr2, if_neg (not_lt.mpr hge)]
        simp [lookupA_insertA_same]

/-- C8 witness: on a fresh store, `setConstantValue 0 (intV 7)` succeeds and
the resulting store rejects both setters with constant-violation while still
holding the constant binding 7 for id 0. -/
theorem C8_constant_violation_witness :
    sampleConstVars.setValue 0 (Value.strV "x") = Except.error VarError.modifyConstant ∧
    sampleConstVars.setConstantValue 0 (Value.strV "x")
      = Except.error VarError.modifyConstant ∧
    lookupA sampleConstVars.values 0 = some ⟨Value.intV 7, true⟩ ∧
    sampleConstVars.getValue1 0 = Value.intV 7 :=
  C8_constant_violation {} sampleConstVars 0 (Value.intV 7) (Value.strV "x") rfl

/-- C9: the ids returned by successive `generateId` calls on one fresh
`IdGenerator` instance are non-negative, the first returned id is 0, and each
returned id is strictly greater than every previously returned one. -/
theorem C9_idGenerator_strictly_increasing (i j : Nat) (h : i < j) :
    0 ≤ IdGenerator.returnedId i ∧
    IdGenerator.returnedId 0 = 0 ∧
    IdGenerator.returnedId i < IdGenerator.returnedId j := by
  refine ⟨?_, rfl, ?_⟩
  · rw [IdGenerator.returnedId_eq]
    exact Int.natCast_nonneg i
  · rw [IdGenerator.returnedId_eq, IdGenerator.returnedId_eq]
    exact_mod_cast h

/-- C9 witness: the 3rd call returns a non-negative id smaller than the 6th
call's id, and the first call returns 0. -/
theorem C9_idGenerator_strictly_increasing_witness :
    0 ≤ IdGenerator.returnedId 2 ∧
    IdGenerator.returnedId 0 = 0 ∧
    IdGenerator.returnedId 2 < IdGenerator.returnedId 5 :=
  C9_idGenerator_strictly_increasing 2 5 (by decide)

/-- C10: `copyWith` assigns the parent's whole `Variables` state over the
freshly constructed child, so the child's entire variable state — the
runtime-constants record and all bindings — equals the parent's at fork time;
the defaults synthesized during the child's construction are overwritten, and
the child keeps the parent's record even when it differs from a freshly
synthesized one. -/
theorem C10_copyWith_preserves_variables (e : ExpressionContext) (clock : Clock)
    (period jsl : Nat) (ns : String) (uuid : Option Nat) (uc : Option CollatorPtr)
    (fid : Nat) (rc : RuntimeConstants) (h : e.vars.runtimeConstants = some rc) :
    (e.copyWith clock period jsl ns uuid uc fid).vars = e.vars ∧
    (e.copyWith clock period jsl ns uuid uc fid).vars.runtimeConstants = some rc ∧
    (rc ≠ generateRuntimeConstants clock →
      (e.copyWith clock period jsl ns uuid uc fid).vars.runtimeConstants
        ≠ some (generateRuntimeConstants clock)) := by
  have hv : (e.copyWith clock period jsl ns uuid uc fid).vars = e.vars := rfl
  refine ⟨hv, ?_, ?_⟩
  · rw [hv, h]
  · intro hne
    rw [hv, h]
    simp [hne]

/-- C10 witness: a parent whose runtime constants are `sampleRC2` (set, with
a non-null cluster time differing from what the sample clock would generate)
forks a child with identical variable state and the parent's record. -/
theorem C10_copyWith_preserves_variables_witness :
    (sampleCtxRC.copyWith sampleClock 3 5 "" none none 0).vars = sampleCtxRC.vars ∧
    (sampleCtxRC.copyWith sampleClock 3 5 "" none none 0).vars.runtimeConstants
      = some sampleRC2 ∧
    (sampleRC2 ≠ generateRuntimeConstants sampleClock →
      (sampleCtxRC.copyWith sampleClock 3 5 "" none none 0).vars.runtimeConstants
        ≠ some (generateRuntimeConstants sampleClock)) :=
  C10_copyWith_preserves_variables sampleCtxRC sampleClock 3 5 "" none none 0 sampleRC2 rfl

end Mongo
